import Mathlib

/-!
# WordNook user routes (`src/routes/user.router.js`)

A shallow embedding of the Express route handlers for sign-up, log-in,
profile update and follow/unfollow, together with theorems about them.

Conventions of the embedding:

* A JavaScript string is a Lean `String`; `.length` and the regular-expression
  quantifiers count UTF-16 code units (`jsLength`).
* The Mongo collection behind the `User` model is a `List User`; `findOne`
  returns the first matching document.
* A handler is a function from the store and the request to an `Outcome`: the
  store afterwards, the response that reached the client (the first one
  written), the cookies attached to it, the store operations issued, and
  whether an exception escaped the handler.
* What `src/` does not contain (the `User` model with its hooks, `bcryptjs`,
  the `auth` middleware) enters through the `Env` record, as an argument, or
  as a definition modelled from the specification (`newUser`, `saveNew`,
  `saveLoaded`).
-/

namespace WordNook

/-! ## JavaScript strings and the three regular expressions -/

/-- Number of UTF-16 code units of one character. -/
def unitsOf (c : Char) : Nat := if c.toNat < 65536 then 1 else 2

/-- JavaScript `s.length`: the number of UTF-16 code units. -/
def jsLength (s : String) : Nat := (s.data.map unitsOf).sum

/-- Line terminators of ECMAScript: the characters `.` does not match. -/
def isLineTerminator (c : Char) : Bool :=
  c.toNat == 10 || c.toNat == 13 || c.toNat == 8232 || c.toNat == 8233

/-- White space stripped by `String.prototype.trim` (WhiteSpace and
LineTerminator productions). -/
def isJsWhitespace (c : Char) : Bool :=
  c.toNat == 9 || c.toNat == 10 || c.toNat == 11 || c.toNat == 12 || c.toNat == 13 ||
  c.toNat == 32 || c.toNat == 160 || c.toNat == 5760 ||
  (8192 ≤ c.toNat && c.toNat ≤ 8202) ||
  c.toNat == 8232 || c.toNat == 8233 || c.toNat == 8239 || c.toNat == 8287 ||
  c.toNat == 12288 || c.toNat == 65279

/-- JavaScript `s.trim()` on the list of characters. -/
def trimChars (cs : List Char) : List Char :=
  ((cs.dropWhile isJsWhitespace).reverse.dropWhile isJsWhitespace).reverse

/-- JavaScript `s.trim()`. -/
def jsTrim (s : String) : String := ⟨trimChars s.data⟩

/-- Regex class `\d`. -/
def isDigit (c : Char) : Bool := 48 ≤ c.toNat && c.toNat ≤ 57

/-- Regex class `[a-z]`. -/
def isLower (c : Char) : Bool := 97 ≤ c.toNat && c.toNat ≤ 122

/-- Regex class `[A-Z]`. -/
def isUpper (c : Char) : Bool := 65 ≤ c.toNat && c.toNat ≤ 90

/-- Regex class `[a-zA-Z]`. -/
def isLetter (c : Char) : Bool := isLower c || isUpper c

/-- Regex class `[!@#$%^&*]` of `pwdRegex`. -/
def isPwdSymbol (c : Char) : Bool := "!@#$%^&*".data.contains c

/-- Regex class `[a-zA-Z0-9-]` of the domain part of `emailRegx`. -/
def isDomainChar (c : Char) : Bool := isLetter c || isDigit c || c.toNat == 45

/-- Regex class of the local part of `emailRegx`: letters, digits and the
listed punctuation. -/
def isLocalChar (c : Char) : Bool :=
  isLetter c || isDigit c || ".!#$%&\x27*+/=?^_\x60\x7b|\x7d~-".data.contains c

/-- The lookahead `(?=.*X)` at position 0: some character of class `X` is
reachable through characters that `.` matches, that is, before the first line
terminator. -/
def lookahead (X : Char → Bool) (cs : List Char) : Bool :=
  (cs.takeWhile (fun c => !isLineTerminator c)).any X

/-- const pwdRegex: `/^(?=.*\d)(?=.*[!@#$%^&*])(?=.*[a-z])(?=.*[A-Z]).{8,}$/`,
as `pwdRegex.test(s)`. -/
def pwdRegex (s : String) : Bool :=
  lookahead isDigit s.data && lookahead isPwdSymbol s.data &&
  lookahead isLower s.data && lookahead isUpper s.data &&
  (s.data.all (fun c => !isLineTerminator c) && decide (8 ≤ jsLength s))

/-- const firstAndLastNameRegex: `/^[a-zA-Z]+$/`, as `.test(s)`. -/
def firstAndLastNameRegex (s : String) : Bool :=
  !s.data.isEmpty && s.data.all isLetter

/-- Splits the characters at every `.`. -/
def splitDots : List Char → List (List Char)
  | [] => [[]]
  | c :: cs =>
    match splitDots cs with
    | [] => [[]]
    | l :: ls => if c.toNat == 46 then [] :: l :: ls else (c :: l) :: ls

/-- Domain part `[a-zA-Z0-9-]+(?:\.[a-zA-Z0-9-]+)*$`: non-empty labels of
domain characters separated by single dots. -/
def domainMatches (cs : List Char) : Bool :=
  (splitDots cs).all (fun l => !l.isEmpty && l.all isDomainChar)

/-- const emailRegx: local part, `@`, domain part, as `emailRegx.test(s)`.
Neither class contains `@`, so the local part is what precedes the first `@`. -/
def emailRegx (s : String) : Bool :=
  let loc := s.data.takeWhile (fun c => !(c.toNat == 64))
  match s.data.dropWhile (fun c => !(c.toNat == 64)) with
  | [] => false
  | _ :: dom => !loc.isEmpty && loc.all isLocalChar && domainMatches dom

/-! ## Data model -/

/-- A document of the `User` collection.

Modelled from the spec: the schema file `models/User.model` is not part of the
sources; the fields are those of the Identity record of the specification
(`password` holds the password hash, ids are ObjectIds, here natural numbers). -/
structure User where
  _id : Nat
  firstName : String
  lastName : String
  userName : String
  email : String
  password : String
  followers : List Nat
  following : List Nat
  likedPosts : List Nat
deriving DecidableEq, Repr

/-- The `User` collection, in natural order. -/
abbrev Store := List User

/-- Payload of the signed session token (`jwt.sign`). -/
structure Token where
  _id : Nat
  email : Option String
deriving DecidableEq, Repr

/-- A response written with `res`. -/
inductive Reply where
  | render (status : Nat) (view : String) (error : String) (data : List (String × Option String))
  | send (status : Nat) (text : String)
  | sendError (status : Nat)
  | json (status : Nat)
  | redirect (location : String)
deriving DecidableEq, Repr

/-- Operations issued against the store and against `bcrypt`. -/
inductive Op where
  | findOneByEmailOrUserName (email userName : String)
  | findOneByUserName (userName : String)
  | findOneByEmail (email : Option String)
  | findById (id : Nat)
  | save (doc : User)
  | findByIdAndUpdate (id : Nat)
  | bcryptCompare (password : Option String) (hash : String)
deriving DecidableEq, Repr

/-- What one request leaves behind. `reply` is the response that reached the
client: the first one written. Writing a header or a second response after
that raises `ERR_HTTP_HEADERS_SENT`; `threw` records that such an exception
escaped the handler. -/
structure Outcome where
  store : Store
  reply : Option Reply
  cookies : List (String × Token)
  ops : List Op
  threw : Bool
deriving DecidableEq, Repr

/-- Collaborators that the sources only import.

Modelled from the spec: `hash` is the salted one-way hash the `User` model
applies to a password before it is stored, `setOther` is what the model does
with an assignment to a key outside the five profile fields, `saveOk` tells
whether the validators of the model other than uniqueness accept a `save()`
of a document into a store, `newId` is the ObjectId given to a new document,
`objectId` is the cast of a route parameter to an ObjectId (`none`: CastError)
and `compare` is `bcrypt.compare`. -/
structure Env where
  hash : String → String
  compare : String → String → Bool
  saveOk : Store → User → Bool
  newId : Store → Nat
  objectId : String → Option Nat
  setOther : String → String → User → User

/-! ## Store operations -/

/-- Mongoose `User.findById(id)`. -/
def findById (s : Store) (id : Nat) : Option User :=
  s.find? (fun u => u._id == id)

/-- Mongoose `User.findOne({ $or: [{ email }, { userName }] })`. -/
def findOneByEmailOrUserName (s : Store) (email userName : String) : Option User :=
  s.find? (fun u => u.email == email || u.userName == userName)

/-- Mongoose `User.findOne({ userName })`. -/
def findOneByUserName (s : Store) (userName : String) : Option User :=
  s.find? (fun u => u.userName == userName)

/-- Mongoose `User.findOne({ email })`; an `undefined` email is sent as
`null` and matches no document, every document having an email. -/
def findOneByEmail (s : Store) (email : Option String) : Option User :=
  match email with
  | none => none
  | some e => s.find? (fun u => u.email == e)

/-- Mongoose `User.findByIdAndUpdate(id, update)`: the update is applied to the
document with that id, if there is one; no error otherwise. -/
def findByIdAndUpdate (s : Store) (id : Nat) (f : User → User) : Store :=
  match s with
  | [] => []
  | u :: us => if u._id == id then f u :: us else u :: findByIdAndUpdate us id f

/-- Update `{ $push: { followers: x } }`. -/
def pushFollowers (x : Nat) (u : User) : User := { u with followers := u.followers ++ [x] }

/-- Update `{ $push: { following: x } }`. -/
def pushFollowing (x : Nat) (u : User) : User := { u with following := u.following ++ [x] }

/-- Update `{ $pull: { followers: x } }`: every occurrence is removed. -/
def pullFollowers (x : Nat) (u : User) : User :=
  { u with followers := u.followers.filter (fun y => !(y == x)) }

/-- Update `{ $pull: { following: x } }`: every occurrence is removed. -/
def pullFollowing (x : Nat) (u : User) : User :=
  { u with following := u.following.filter (fun y => !(y == x)) }

/-- Whether the document `v` holds neither the userName nor the email of `d`. -/
def noClash (d v : User) : Bool := v.userName != d.userName && v.email != d.email

/-- The call `newUser.save()` of a new document `d`: the store afterwards, or
`none` when the save fails.

Modelled from the spec: the `User` model (`models/User.model`) is not part of
the sources. By the Credential Store of the specification, which "enforces
uniqueness of username/email", the save fails when a document of the
collection holds the userName or the email of `d`. -/
def saveNew (env : Env) (s : Store) (d : User) : Option Store :=
  if env.saveOk s d && s.all (noClash d) then some (s ++ [d]) else none

/-- The call `user.save()` of the document loaded under `id`, now `d`: the
store afterwards, or `none` when the save fails.

Modelled from the spec: the `User` model is not part of the sources. By the
Credential Store of the specification, which "enforces uniqueness of
username/email", the save fails when another document of the collection (the
collection without the loaded document) holds the userName or the email of
`d`. -/
def saveLoaded (env : Env) (s : Store) (id : Nat) (d : User) : Option Store :=
  if env.saveOk s d && (s.eraseP (fun v => v._id == id)).all (noClash d) then
    some (findByIdAndUpdate s id (fun _ => d))
  else none

/-! ## Request helpers -/

/-- JavaScript `!x` for a form field: `undefined` and the empty string. -/
def falsy (o : Option String) : Bool :=
  match o with
  | none => true
  | some v => v.data.isEmpty

/-- JavaScript `x || d` for a form field. -/
def orElse (o : Option String) (d : String) : String :=
  match o with
  | none => d
  | some v => if v.data.isEmpty then d else v

/-- Writes a response: the first one reaches the client, a later one throws. -/
def respond (o : Outcome) (r : Reply) : Outcome :=
  match o.reply with
  | none => { o with reply := some r }
  | some _ => { o with threw := true }

/-- The state of a request before the handler has done anything. -/
def start (s : Store) : Outcome :=
  { store := s, reply := none, cookies := [], ops := [], threw := false }

/-- Adds an operation to the trace. -/
def logOp (o : Outcome) (op : Op) : Outcome := { o with ops := o.ops ++ [op] }

/-- Calls `res.cookie('token', token)` and then `res.redirect(location)`; both
throw once a response has been written. -/
def cookieAndRedirect (o : Outcome) (token : Token) (location : String) : Outcome :=
  match o.reply with
  | none => { o with cookies := o.cookies ++ [("token", token)], reply := some (.redirect location) }
  | some _ => { o with threw := true }

/-! ## POST /sign-up -/

/-- Fields of `req.body` read by the sign-up handler (`none`: absent). -/
structure SignUpBody where
  firstName : Option String
  lastName : Option String
  userName : Option String
  email : Option String
  password : Option String
  confirmPassword : Option String
deriving DecidableEq, Repr

/-- The error text of the password check. -/
def pwdPolicyError : String :=
  "Your password must contain a minimum of 8 letter, with at least a symbol, upper and lower case letters and a number"

/-- Document built by `new User(req.body)` from the fields the handler has
checked.

Modelled from the spec: the `User` model is not part of the sources. By the
data model of the specification, `firstName` and `lastName` of an Identity are
"alphabetic strings, no digits/symbols": the model keeps the name that the
handler has validated, which is the submitted name without the white space
before and after it (lines 140-143 and 157). By `register` of the
specification the Identity is created "with hashed password and empty edge
sets"; userName and email are the keys of the later lookups and are kept as
submitted. -/
def newUser (env : Env) (s : Store) (firstName lastName userName email password : String) : User :=
  { _id := env.newId s, firstName := jsTrim firstName, lastName := jsTrim lastName,
    userName := userName, email := email, password := env.hash password,
    followers := [], following := [], likedPosts := [] }

/-- Handler `router.post('/sign-up')`. After the first check every field is a
non-empty string; `orElse x ""` is then that string. -/
def signUp (env : Env) (s : Store) (body : SignUpBody) : Outcome :=
  if falsy body.firstName || falsy body.lastName || falsy body.userName ||
      falsy body.email || falsy body.password || falsy body.confirmPassword then
    respond (start s) (.render 422 "./auth/signUp" "Please add all the fields!"
      [("firstName", some (orElse body.firstName "")), ("lastName", some (orElse body.lastName "")),
       ("userName", some (orElse body.userName "")), ("email", some (orElse body.email "")),
       ("password", some (orElse body.password "")),
       ("confirmPassword", some (orElse body.confirmPassword " "))])
  else
    let firstName := orElse body.firstName ""
    let lastName := orElse body.lastName ""
    let userName := orElse body.userName ""
    let email := orElse body.email ""
    let password := orElse body.password ""
    let confirmPassword := orElse body.confirmPassword ""
    if jsLength userName < 6 || jsLength userName > 12 then
      respond (start s) (.render 500 "./auth/signUp"
        "Username should be between 6 to 12 character"
        [("firstName", body.firstName), ("lastName", body.lastName), ("userName", body.userName),
         ("email", body.email), ("password", body.password),
         ("confirmPassword", body.confirmPassword)])
    else if !firstAndLastNameRegex (jsTrim firstName) then
      respond (start s) (.render 500 "./auth/signUp"
        "First Name must contain only alphabet character"
        [("firstName", body.firstName), ("lastName", body.lastName), ("userName", body.userName),
         ("email", body.email), ("password", body.password),
         ("confirmPassword", body.confirmPassword)])
    else if !firstAndLastNameRegex (jsTrim lastName) then
      respond (start s) (.render 500 "./auth/signUp"
        "Last Name must contain only alphabet character"
        [("firstName", body.firstName), ("lastName", body.lastName), ("userName", body.userName),
         ("email", body.email), ("password", body.password),
         ("confirmPassword", body.confirmPassword)])
    else if !emailRegx email then
      respond (start s) (.render 500 "./auth/signUp" "Please enter a valid email address"
        [("firstName", body.firstName), ("lastName", body.lastName), ("userName", body.userName),
         ("email", body.email), ("password", body.password),
         ("confirmPassword", body.confirmPassword)])
    else if pwdRegex password then
      respond (start s) (.render 500 "./auth/signUp" pwdPolicyError
        [("firstName", body.firstName), ("lastName", body.lastName), ("userName", body.userName),
         ("email", body.email), ("password", body.password)])
    else if password != confirmPassword then
      respond (start s) (.render 500 "./auth/signUp" "Password does not match"
        [("firstName", body.firstName), ("lastName", body.lastName), ("userName", body.userName),
         ("email", body.email), ("password", body.password),
         ("confirmPassword", body.confirmPassword)])
    else
      let o1 := logOp (start s) (.findOneByEmailOrUserName email userName)
      match findOneByEmailOrUserName s email userName with
      | some doc =>
        let error := if doc.email == email then "Email already taken!" else "Username already taken!"
        respond o1 (.render 401 "./auth/logIn" error
          [("firstName", body.firstName), ("lastName", body.lastName), ("email", body.email),
           ("userName", body.userName), ("password", body.password),
           ("confirmPassword", body.confirmPassword)])
      | none =>
        let o2 := logOp o1 (.findOneByUserName userName)
        match findOneByUserName s userName with
        | some _ =>
          respond o2 (.render 401 "./auth/logIn" "Username already taken!"
            [("firstName", body.firstName), ("lastName", body.lastName),
             ("userName", body.userName), ("password", body.password), ("email", body.email),
             ("confirmPassword", body.confirmPassword)])
        | none =>
          let doc := newUser env s firstName lastName userName email password
          let o3 := logOp o2 (.save doc)
          match saveNew env s doc with
          | some s2 =>
            cookieAndRedirect { o3 with store := s2 } { _id := doc._id, email := none } "/"
          | none =>
            respond o3 (.render 422 "./auth/logIn" "Oops something went wrong!"
              [("firstName", body.firstName), ("lastName", body.lastName),
               ("userName", body.userName), ("email", body.email), ("password", body.password)])

/-! ## POST /log-in -/

/-- Fields of `req.body` read by the log-in handler. -/
structure LogInBody where
  email : Option String
  password : Option String
deriving DecidableEq, Repr

/-- Handler `router.post('/log-in')`. The first `if` has no `return`, so the
lookup below runs in every case. `bcrypt.compare` reports an error for an
`undefined` password, which the callback treats like a mismatch. -/
def logIn (env : Env) (s : Store) (body : LogInBody) : Outcome :=
  let o0 :=
    if falsy body.email || falsy body.password then
      respond (start s) (.render 401 "./auth/logIn" "Please add all the fields!"
        [("email", some (orElse body.email "")), ("password", some (orElse body.password ""))])
    else start s
  let o1 := logOp o0 (.findOneByEmail body.email)
  match findOneByEmail s body.email with
  | none =>
    respond o1 (.render 401 "./auth/logIn" "Invalid email or password!"
      [("email", body.email), ("password", body.password)])
  | some doc =>
    let o2 := logOp o1 (.bcryptCompare body.password doc.password)
    let matched :=
      match body.password with
      | none => false
      | some p => env.compare p doc.password
    if !matched then
      respond o2 (.render 401 "./auth/logIn" "Invalid email or password!"
        [("email", body.email), ("password", body.password)])
    else cookieAndRedirect o2 { _id := doc._id, email := body.email } "/"

/-! ## POST /read-profile -/

/-- const allowedUpdates. -/
def allowedUpdates : List String := ["firstName", "lastName", "userName", "email", "password"]

/-- Assignment `user[update] = req.body[update]` as it reaches the store.

Modelled from the spec: a password is stored as its hash; a key outside the
five profile fields is handed to the model (`env.setOther`). -/
def assign (env : Env) (u : User) (key value : String) : User :=
  if key == "firstName" then { u with firstName := value }
  else if key == "lastName" then { u with lastName := value }
  else if key == "userName" then { u with userName := value }
  else if key == "email" then { u with email := value }
  else if key == "password" then { u with password := env.hash value }
  else env.setOther key value u

/-- The `catch (e)` block of the profile update: `res.status(500).send(e)`. -/
def catch500 (o : Outcome) : Outcome := respond o (.sendError 500)

/-- Handler `router.post('/read-profile')`; `user` is the id in `req.user`
(`none`: no authenticated user), `body` lists the keys of `req.body` in order
with their values. The 400 response is not followed by a `return`, so the
`try` block runs in every case. -/
def readProfile (env : Env) (s : Store) (user : Option Nat) (body : List (String × String)) :
    Outcome :=
  let updates := body.map Prod.fst
  let isValid := updates.all (fun update => allowedUpdates.contains update)
  let o0 := if !isValid then respond (start s) (.send 400 "invalid update property") else start s
  match user with
  | none => catch500 o0
  | some id =>
    let o1 := logOp o0 (.findById id)
    match findById s id with
    | none => catch500 o1
    | some u =>
      let u2 := body.foldl (fun acc kv => assign env acc kv.1 kv.2) u
      let o2 := logOp o1 (.save u2)
      match saveLoaded env s id u2 with
      | some s2 =>
        let o3 := { o2 with store := s2 }
        match o3.reply with
        | none => respond o3 (.redirect "/")
        | some _ => catch500 o3
      | none => catch500 o2

/-! ## GET /follow/:id and GET /unfollow/:id -/

/-- Handler `router.get('/follow/:id')`; `user` is the id in `req.user`,
`param` is `req.params.id`. A parameter that names no document updates nothing
and raises no error. -/
def follow (env : Env) (s : Store) (user : Option Nat) (param : String) : Outcome :=
  match user with
  | none => respond (start s) (.redirect "/log-in")
  | some me =>
    match env.objectId param with
    | none => respond (start s) (.json 422)
    | some target =>
      let s1 := findByIdAndUpdate s target (pushFollowers me)
      let o1 := logOp { start s with store := s1 } (.findByIdAndUpdate target)
      let s2 := findByIdAndUpdate s1 me (pushFollowing target)
      let o2 := logOp { o1 with store := s2 } (.findByIdAndUpdate me)
      respond o2 (.redirect ("/author/" ++ param))

/-- Handler `router.get('/unfollow/:id')`. -/
def unfollow (env : Env) (s : Store) (user : Option Nat) (param : String) : Outcome :=
  match user with
  | none => respond (start s) (.redirect "/log-in")
  | some me =>
    match env.objectId param with
    | none => respond (start s) (.json 422)
    | some target =>
      let s1 := findByIdAndUpdate s target (pullFollowers me)
      let o1 := logOp { start s with store := s1 } (.findByIdAndUpdate target)
      let s2 := findByIdAndUpdate s1 me (pullFollowing target)
      let o2 := logOp { o1 with store := s2 } (.findByIdAndUpdate me)
      respond o2 (.redirect ("/author/" ++ param))

/-! ## A concrete environment and sample data -/

/-- Value of a hexadecimal digit. -/
def hexDigit (c : Char) : Option Nat :=
  if isDigit c then some (c.toNat - 48)
  else if 97 ≤ c.toNat && c.toNat ≤ 102 then some (c.toNat - 87)
  else if 65 ≤ c.toNat && c.toNat ≤ 70 then some (c.toNat - 55)
  else none

/-- Cast of a string to an ObjectId: 24 hexadecimal digits, read as a number,
or 12 one-byte characters, read as the bytes of the id. -/
def hexId (p : String) : Option Nat :=
  if p.data.length == 24 then
    p.data.foldl (fun acc c =>
      match acc, hexDigit c with
      | some n, some d => some (16 * n + d)
      | _, _ => none) (some 0)
  else if p.data.length == 12 && p.data.all (fun c => decide (c.toNat < 256)) then
    some (p.data.foldl (fun n c => 256 * n + c.toNat) 0)
  else none

/-- An environment for evaluating the handlers: the hash prefixes a tag,
`compare` rehashes, the validators other than uniqueness accept every
document, a new id is one more than the largest id, a route parameter is cast
by `hexId`, an id assigned to one of the three id lists becomes its only
element, and a key that is no field of the record is dropped. -/
def sampleEnv : Env where
  hash := fun p => "hash:" ++ p
  compare := fun p h => ("hash:" ++ p) == h
  saveOk := fun _ _ => true
  newId := fun s => (s.map User._id).foldl max 0 + 1
  objectId := hexId
  setOther := fun key value u =>
    match hexId value with
    | none => u
    | some i =>
      if key == "followers" then { u with followers := [i] }
      else if key == "following" then { u with following := [i] }
      else if key == "likedPosts" then { u with likedPosts := [i] }
      else u

/-- A stored identity with empty edge lists. -/
def mkUser (id : Nat) (firstName lastName userName email password : String) : User :=
  { _id := id, firstName := firstName, lastName := lastName, userName := userName,
    email := email, password := "hash:" ++ password,
    followers := [], following := [], likedPosts := [] }

/-- The identity of the scenario of the specification. -/
def alice : User := mkUser 1 "Alice" "Doe" "alice01" "a@x.com" "Abcd123!"

/-- A second identity. -/
def bob : User := mkUser 2 "Bob" "Roe" "bobby02" "b@x.com" "Xyzw987#"

/-- Route parameter naming `alice`. -/
def aliceParam : String := "000000000000000000000001"

/-- Route parameter naming `bob`. -/
def bobParam : String := "000000000000000000000002"

/-- A well-formed route parameter that names no stored identity. -/
def ghostParam : String := "000000000000000000000007"

/-! ## Invariants of the store -/

/-- No two identities share a userName or an email. -/
def uniqueNames (s : Store) : Prop :=
  s.Pairwise (fun u v => u.userName ≠ v.userName ∧ u.email ≠ v.email)

instance (s : Store) : Decidable (uniqueNames s) := by
  unfold uniqueNames; infer_instance

/-- No two documents share an `_id`. -/
def uniqueIds (s : Store) : Prop := (s.map User._id).Nodup

/-- For all stored A and B: A is in `B.followers` iff B is in `A.following`. -/
def edgeSymmetric (s : Store) : Bool :=
  s.all (fun ua => s.all (fun ub => ub.followers.contains ua._id == ua.following.contains ub._id))

/-- Every id in a `following` list names a stored identity. -/
def followingStored (s : Store) : Bool :=
  s.all (fun u => u.following.all (fun i => (findById s i).isSome))

/-- Edge symmetry together with the absence of dangling `following` ids. -/
def graphInvariant (s : Store) : Bool := edgeSymmetric s && followingStored s

/-! ## Lemmas on the store operations -/

theorem findById_nil (j : Nat) : findById [] j = none := rfl

theorem findById_cons (u : User) (us : Store) (j : Nat) :
    findById (u :: us) j = if u._id = j then some u else findById us j := by
  by_cases h : u._id = j
  · simp [findById, List.find?, h]
  · have hb : (u._id == j) = false := by simpa using h
    simp [findById, List.find?, h, hb]

theorem findByIdAndUpdate_cons (u : User) (us : Store) (id : Nat) (f : User → User) :
    findByIdAndUpdate (u :: us) id f =
      if u._id = id then f u :: us else u :: findByIdAndUpdate us id f := by
  by_cases h : u._id = id <;> simp [findByIdAndUpdate, h]

/-- Looking a document up after an update that keeps ids: the updated document
under the updated id, the old one under every other id. -/
theorem findById_findByIdAndUpdate (s : Store) (id j : Nat) (f : User → User)
    (hf : ∀ u, (f u)._id = u._id) :
    findById (findByIdAndUpdate s id f) j =
      if j = id then (findById s j).map f else findById s j := by
  induction s with
  | nil => simp [findByIdAndUpdate, findById_nil]
  | cons u us ih =>
    rw [findByIdAndUpdate_cons]
    by_cases h : u._id = id
    · by_cases hj : j = id
      · subst hj
        simp [h, findById_cons, hf]
      · have h1 : ¬ id = j := fun e => hj e.symm
        subst h
        simp [hj, findById_cons, hf, h1]
    · rw [if_neg h, findById_cons, ih, findById_cons]
      by_cases hj : j = id
      · subst hj
        simp [h]
      · simp [hj]

theorem map_findByIdAndUpdate {β : Type} (g : User → β) (s : Store) (id : Nat) (f : User → User)
    (hf : ∀ u, g (f u) = g u) : (findByIdAndUpdate s id f).map g = s.map g := by
  induction s with
  | nil => rfl
  | cons u us ih =>
    rw [findByIdAndUpdate_cons]
    by_cases h : u._id = id
    · simp [h, hf]
    · simp [h, ih]

/-- With unique ids, `findByIdAndUpdate` applies the update to every document
of that id, of which there is at most one. -/
theorem findByIdAndUpdate_eq_map (s : Store) (id : Nat) (f : User → User) (h : uniqueIds s) :
    findByIdAndUpdate s id f = s.map (fun u => if u._id = id then f u else u) := by
  induction s with
  | nil => rfl
  | cons u us ih =>
    have hnd : u._id ∉ us.map User._id ∧ (us.map User._id).Nodup := List.nodup_cons.mp h
    have hu : uniqueIds us := hnd.2
    rw [findByIdAndUpdate_cons, List.map_cons]
    by_cases hid : u._id = id
    · rw [if_pos hid, if_pos hid]
      congr 1
      have hnot : ∀ v ∈ us, ¬ v._id = id := by
        intro v hv e
        exact hnd.1 (by rw [hid, ← e]; exact List.mem_map_of_mem _ hv)
      symm
      calc us.map (fun u => if u._id = id then f u else u)
          = us.map (fun u => u) := List.map_congr_left (fun v hv => by simp [hnot v hv])
        _ = us := List.map_id' us
    · rw [if_neg hid, if_neg hid, ih hu]

theorem uniqueIds_findByIdAndUpdate (s : Store) (id : Nat) (f : User → User)
    (hf : ∀ u, (f u)._id = u._id) (h : uniqueIds s) : uniqueIds (findByIdAndUpdate s id f) := by
  unfold uniqueIds at h ⊢
  rw [map_findByIdAndUpdate _ s id f hf]
  exact h

theorem pushFollowers_id (x : Nat) (u : User) : (pushFollowers x u)._id = u._id := rfl

theorem pushFollowing_id (x : Nat) (u : User) : (pushFollowing x u)._id = u._id := rfl

theorem pullFollowers_id (x : Nat) (u : User) : (pullFollowers x u)._id = u._id := rfl

theorem pullFollowing_id (x : Nat) (u : User) : (pullFollowing x u)._id = u._id := rfl

/-! ## Lemmas on requests and responses -/

theorem falsy_some_of_ne (v : String) (h : v ≠ "") : falsy (some v) = false := by
  cases v with
  | mk cs =>
    cases cs with
    | nil => exact absurd rfl h
    | cons c cs => rfl

theorem orElse_some_of_ne (v d : String) (h : v ≠ "") : orElse (some v) d = v := by
  cases v with
  | mk cs =>
    cases cs with
    | nil => exact absurd rfl h
    | cons c cs => rfl

/-- What holds of a body for which the handler does not answer with the
"Please add all the fields!" page: the field is a non-empty string. -/
theorem orElse_of_not_falsy (o : Option String) (d : String) (h : falsy o = false) :
    o = some (orElse o d) := by
  cases o with
  | none => simp [falsy] at h
  | some v =>
    cases v with
    | mk cs =>
      cases cs with
      | nil => simp [falsy] at h
      | cons c cs => rfl

theorem respond_ops (o : Outcome) (r : Reply) : (respond o r).ops = o.ops := by
  unfold respond; split <;> rfl

theorem respond_store (o : Outcome) (r : Reply) : (respond o r).store = o.store := by
  unfold respond; split <;> rfl

theorem respond_cookies (o : Outcome) (r : Reply) : (respond o r).cookies = o.cookies := by
  unfold respond; split <;> rfl

theorem cookieAndRedirect_ops (o : Outcome) (t : Token) (l : String) :
    (cookieAndRedirect o t l).ops = o.ops := by
  unfold cookieAndRedirect; split <;> rfl

theorem cookieAndRedirect_store (o : Outcome) (t : Token) (l : String) :
    (cookieAndRedirect o t l).store = o.store := by
  unfold cookieAndRedirect; split <;> rfl

/-! ## Lemmas on the handlers -/

/-- A successful save of a new document: the validators accept it, no stored
document clashes with it, and it is appended. -/
theorem saveNew_eq_some (env : Env) (s : Store) (d : User) (s2 : Store)
    (h : saveNew env s d = some s2) :
    env.saveOk s d = true ∧ s.all (noClash d) = true ∧ s2 = s ++ [d] := by
  unfold saveNew at h
  split at h
  · rename_i hc
    simp only [Bool.and_eq_true] at hc
    exact ⟨hc.1, hc.2, (Option.some.inj h).symm⟩
  · exact absurd h (by simp)

/-- The checks a sign-up has passed when it is answered with the redirect. -/
theorem signUp_success_checks (env : Env) (s : Store) (body : SignUpBody)
    (h : (signUp env s body).reply = some (.redirect "/")) :
    (falsy body.firstName = false ∧ falsy body.lastName = false ∧
      falsy body.userName = false ∧ falsy body.email = false ∧
      falsy body.password = false ∧ falsy body.confirmPassword = false) ∧
    (6 ≤ jsLength (orElse body.userName "") ∧ jsLength (orElse body.userName "") ≤ 12) ∧
    firstAndLastNameRegex (jsTrim (orElse body.firstName "")) = true ∧
    firstAndLastNameRegex (jsTrim (orElse body.lastName "")) = true ∧
    emailRegx (orElse body.email "") = true ∧
    pwdRegex (orElse body.password "") = false ∧
    orElse body.password "" = orElse body.confirmPassword "" ∧
    findOneByEmailOrUserName s (orElse body.email "") (orElse body.userName "") = none ∧
    findOneByUserName s (orElse body.userName "") = none ∧
    saveNew env s (newUser env s (orElse body.firstName "") (orElse body.lastName "")
      (orElse body.userName "") (orElse body.email "") (orElse body.password "")) =
      some (s ++ [newUser env s (orElse body.firstName "") (orElse body.lastName "")
        (orElse body.userName "") (orElse body.email "") (orElse body.password "")]) := by
  unfold signUp at h
  split at h
  · simp [respond, start] at h
  · rename_i h0
    simp only [Bool.or_eq_true, not_or, Bool.not_eq_true] at h0
    simp only at h
    split at h
    · simp [respond, start] at h
    · split at h
      · simp [respond, start] at h
      · split at h
        · simp [respond, start] at h
        · split at h
          · simp [respond, start] at h
          · split at h
            · simp [respond, start] at h
            · split at h
              · simp [respond, start] at h
              · split at h
                · simp [respond, start, logOp] at h
                · split at h
                  · simp [respond, start, logOp] at h
                  · split at h
                    · rename_i h1 h2 h3 h4 h5 h6 _ h7 _ h7b _ s2 h8
                      have h8 : saveNew env s (newUser env s (orElse body.firstName "")
                          (orElse body.lastName "") (orElse body.userName "")
                          (orElse body.email "") (orElse body.password "")) =
                          some (s ++ [newUser env s (orElse body.firstName "")
                            (orElse body.lastName "") (orElse body.userName "")
                            (orElse body.email "") (orElse body.password "")]) := by
                        rw [h8, (saveNew_eq_some env s _ s2 h8).2.2]
                      simp only [Bool.or_eq_true, decide_eq_true_eq, not_or, not_lt, gt_iff_lt]
                        at h1
                      simp only [Bool.not_eq_true, Bool.not_eq_false_eq_eq_true, bne_iff_ne, ne_eq,
                        not_not, Bool.not_eq_true_eq_eq_false] at h2 h3 h4 h5 h6
                      obtain ⟨⟨⟨⟨⟨a1, a2⟩, a3⟩, a4⟩, a5⟩, a6⟩ := h0
                      exact ⟨⟨a1, a2, a3, a4, a5, a6⟩, ⟨h1.1, h1.2⟩, by simpa using h2,
                        by simpa using h3, by simpa using h4, h5, h6, h7, h7b, h8⟩
                    · simp [respond, start, logOp] at h

/-- The outcome of a sign-up that is answered with the redirect: one document
is appended, the `newUser` of the checked fields, and the token cookie names
it. -/
theorem signUp_success_outcome (env : Env) (s : Store) (body : SignUpBody)
    (h : (signUp env s body).reply = some (.redirect "/")) :
    (signUp env s body).store = s ++ [newUser env s (orElse body.firstName "")
      (orElse body.lastName "") (orElse body.userName "") (orElse body.email "")
      (orElse body.password "")] ∧
    (signUp env s body).cookies = [("token", { _id := env.newId s, email := none })] := by
  obtain ⟨⟨a1, a2, a3, a4, a5, a6⟩, ⟨l1, l2⟩, c1, c2, c3, c4, c5, c6, c7, c8⟩ :=
    signUp_success_checks env s body h
  have h1 : ¬ jsLength (orElse body.userName "") < 6 := by omega
  have h2 : ¬ jsLength (orElse body.userName "") > 12 := by omega
  have c5b : orElse body.confirmPassword "" = orElse body.password "" := c5.symm
  simp only [signUp, a1, a2, a3, a4, a5, a6, h1, h2, c1, c2, c3, c4, c5b, c6, c7, c8,
    Bool.or_self, Bool.false_eq_true, if_false, decide_False, Bool.not_true, bne_self_eq_false]
  simp [cookieAndRedirect, logOp, start, newUser]

/-- A sign-up either leaves the store as it was or is answered with the
redirect. -/
theorem signUp_store_cases (env : Env) (s : Store) (body : SignUpBody) :
    (signUp env s body).store = s ∨ (signUp env s body).reply = some (.redirect "/") := by
  unfold signUp
  simp only
  repeat' split
  all_goals first
    | (left; simp [respond_store, logOp, start]; done)
    | (right; simp [cookieAndRedirect, logOp, start])

/-- The log-in handler leaves the store as it was. -/
theorem logIn_store (env : Env) (s : Store) (body : LogInBody) :
    (logIn env s body).store = s := by
  unfold logIn
  simp only
  split
  · rw [respond_store]; split <;> simp [respond_store, logOp, start]
  · split <;> simp only [respond_store, cookieAndRedirect_store, logOp] <;>
      split <;> simp [respond_store, start]

/-- The store after a follow whose parameter casts to `b`. -/
theorem follow_store (env : Env) (s : Store) (a b : Nat) (param : String)
    (hp : env.objectId param = some b) :
    (follow env s (some a) param).store =
      findByIdAndUpdate (findByIdAndUpdate s b (pushFollowers a)) a (pushFollowing b) := by
  simp [follow, hp, respond, logOp, start]

/-- The response of a follow whose parameter casts. -/
theorem follow_reply (env : Env) (s : Store) (a b : Nat) (param : String)
    (hp : env.objectId param = some b) :
    (follow env s (some a) param).reply = some (.redirect ("/author/" ++ param)) := by
  simp [follow, hp, respond, logOp, start]

/-- The store after an unfollow whose parameter casts to `b`. -/
theorem unfollow_store (env : Env) (s : Store) (a b : Nat) (param : String)
    (hp : env.objectId param = some b) :
    (unfollow env s (some a) param).store =
      findByIdAndUpdate (findByIdAndUpdate s b (pullFollowers a)) a (pullFollowing b) := by
  simp [unfollow, hp, respond, logOp, start]

/-- The response of an unfollow whose parameter casts. -/
theorem unfollow_reply (env : Env) (s : Store) (a b : Nat) (param : String)
    (hp : env.objectId param = some b) :
    (unfollow env s (some a) param).reply = some (.redirect ("/author/" ++ param)) := by
  simp [unfollow, hp, respond, logOp, start]

/-- The two documents of an edge after a follow. -/
theorem findById_follow (s : Store) (a b j : Nat) :
    findById (findByIdAndUpdate (findByIdAndUpdate s b (pushFollowers a)) a (pushFollowing b)) j =
      ((if j = b then (findById s j).map (pushFollowers a) else findById s j).map
        (fun u => if j = a then pushFollowing b u else u)) := by
  rw [findById_findByIdAndUpdate _ _ _ _ (pushFollowing_id b),
    findById_findByIdAndUpdate _ _ _ _ (pushFollowers_id a)]
  by_cases h : j = a <;> simp [h]

/-- The two documents of an edge after an unfollow. -/
theorem findById_unfollow (s : Store) (a b j : Nat) :
    findById (findByIdAndUpdate (findByIdAndUpdate s b (pullFollowers a)) a (pullFollowing b)) j =
      ((if j = b then (findById s j).map (pullFollowers a) else findById s j).map
        (fun u => if j = a then pullFollowing b u else u)) := by
  rw [findById_findByIdAndUpdate _ _ _ _ (pullFollowing_id b),
    findById_findByIdAndUpdate _ _ _ _ (pullFollowers_id a)]
  by_cases h : j = a <;> simp [h]

/-- The store after the two updates of a follow, with unique ids. -/
theorem follow_updates_eq_map (s : Store) (a b : Nat) (h : uniqueIds s) :
    findByIdAndUpdate (findByIdAndUpdate s b (pushFollowers a)) a (pushFollowing b) =
      s.map (fun u =>
        { u with
          followers := if u._id = b then u.followers ++ [a] else u.followers,
          following := if u._id = a then u.following ++ [b] else u.following }) := by
  rw [findByIdAndUpdate_eq_map _ a _ (uniqueIds_findByIdAndUpdate s b _ (pushFollowers_id a) h),
    findByIdAndUpdate_eq_map s b _ h, List.map_map]
  apply List.map_congr_left
  intro u _
  obtain ⟨id, fn, ln, un, em, pw, fr, fg, lp⟩ := u
  by_cases h1 : id = b
  · subst h1
    by_cases h2 : id = a
    · subst h2
      simp [pushFollowers, pushFollowing]
    · simp [h2, pushFollowers, pushFollowing]
  · by_cases h2 : id = a
    · subst h2
      simp [h1, pushFollowers, pushFollowing]
    · simp [h1, h2, pushFollowers, pushFollowing]

/-- The store after the two updates of an unfollow, with unique ids. -/
theorem unfollow_updates_eq_map (s : Store) (a b : Nat) (h : uniqueIds s) :
    findByIdAndUpdate (findByIdAndUpdate s b (pullFollowers a)) a (pullFollowing b) =
      s.map (fun u =>
        { u with
          followers := if u._id = b then u.followers.filter (fun y => !(y == a)) else u.followers,
          following := if u._id = a then u.following.filter (fun y => !(y == b)) else u.following }) := by
  rw [findByIdAndUpdate_eq_map _ a _ (uniqueIds_findByIdAndUpdate s b _ (pullFollowers_id a) h),
    findByIdAndUpdate_eq_map s b _ h, List.map_map]
  apply List.map_congr_left
  intro u _
  obtain ⟨id, fn, ln, un, em, pw, fr, fg, lp⟩ := u
  by_cases h1 : id = b
  · subst h1
    by_cases h2 : id = a
    · subst h2
      simp [pullFollowers, pullFollowing]
    · simp [h2, pullFollowers, pullFollowing]
  · by_cases h2 : id = a
    · subst h2
      simp [h1, pullFollowers, pullFollowing]
    · simp [h1, h2, pullFollowers, pullFollowing]

/-! ## C1: the password check of sign-up -/

/-- C1: a sign-up whose fields are all valid and whose password "Abcd123!"
satisfies the password policy is answered with the password-policy error page,
and nothing is stored: the test of `pwdRegex` is not negated. -/
theorem signUp_rejects_policy_password (env : Env) (s : Store) :
    pwdRegex "Abcd123!" = true ∧
    signUp env s ⟨some "Alice", some "Doe", some "alice01", some "a@x.com",
        some "Abcd123!", some "Abcd123!"⟩ =
      { store := s,
        reply := some (.render 500 "./auth/signUp" pwdPolicyError
          [("firstName", some "Alice"), ("lastName", some "Doe"), ("userName", some "alice01"),
           ("email", some "a@x.com"), ("password", some "Abcd123!")]),
        cookies := [], ops := [], threw := false } := by
  constructor
  · decide
  · rfl

/-- With six non-empty fields and valid userName, names and email, the
password-policy page is the answer exactly when `pwdRegex` matches the
password. -/
theorem signUp_policy_error_iff (env : Env) (s : Store) (fn ln un em pw cp : String)
    (hfn : fn ≠ "") (hln : ln ≠ "") (hun : un ≠ "") (hem : em ≠ "") (hpw : pw ≠ "")
    (hcp : cp ≠ "")
    (hlen : 6 ≤ jsLength un ∧ jsLength un ≤ 12)
    (hfirst : firstAndLastNameRegex (jsTrim fn) = true)
    (hlast : firstAndLastNameRegex (jsTrim ln) = true)
    (hemail : emailRegx em = true) :
    (signUp env s ⟨some fn, some ln, some un, some em, some pw, some cp⟩).reply =
        some (.render 500 "./auth/signUp" pwdPolicyError
          [("firstName", some fn), ("lastName", some ln), ("userName", some un),
           ("email", some em), ("password", some pw)]) ↔
      pwdRegex pw = true := by
  have h1 : ¬ jsLength un < 6 := by omega
  have h2 : ¬ jsLength un > 12 := by omega
  cases hp : pwdRegex pw
  · simp only [Bool.false_eq_true, iff_false]
    simp only [signUp, falsy_some_of_ne, orElse_some_of_ne, hfn, hln, hun, hem, hpw, hcp, h1, h2,
      hfirst, hlast, hemail, hp, ne_eq, not_false_eq_true, Bool.or_self, Bool.false_eq_true,
      ↓reduceIte, decide_False, Bool.not_true]
    split
    · simp [respond, start]
    · split
      · simp [respond, start, logOp]
      · split
        · simp [respond, start, logOp]
        · split
          · simp [cookieAndRedirect, logOp, start]
          · simp [respond, start, logOp]
  · simp [signUp, falsy_some_of_ne, orElse_some_of_ne, hfn, hln, hun, hem, hpw, hcp, h1, h2,
      hfirst, hlast, hemail, hp, respond, start]

/-! ## C2: profile update with a key outside the allow-list -/

/-- C2: a profile update whose body holds the key "isAdmin" outside the
allow-list and the allowed key "firstName" is answered with 400 "invalid
update property", and yet the stored record of the requester is saved with the
new firstName: the 400 response is not followed by a `return`. -/
theorem readProfile_invalid_key_still_saves :
    readProfile sampleEnv [alice, bob] (some 2) [("isAdmin", "x"), ("firstName", "Mallory")] =
      { store := [alice, { bob with firstName := "Mallory" }],
        reply := some (.send 400 "invalid update property"),
        cookies := [],
        ops := [.findById 2, .save { bob with firstName := "Mallory" }],
        threw := true } ∧
    findById [alice, bob] 2 = some bob ∧
    findById (readProfile sampleEnv [alice, bob] (some 2)
      [("isAdmin", "x"), ("firstName", "Mallory")]).store 2 ≠ some bob := by
  decide

/-- A profile update with a key outside the allow-list, by a stored identity
whose save succeeds: the answer is the 400 rejection, and the stored record is
replaced by the record with every key of the body assigned. -/
theorem readProfile_invalid_general (env : Env) (s : Store) (id : Nat) (u : User)
    (body : List (String × String))
    (hu : findById s id = some u)
    (hbad : ∃ kv ∈ body, kv.1 ∉ allowedUpdates)
    (hsave : saveLoaded env s id (body.foldl (fun acc kv => assign env acc kv.1 kv.2) u) =
      some (findByIdAndUpdate s id
        (fun _ => body.foldl (fun acc kv => assign env acc kv.1 kv.2) u))) :
    (readProfile env s (some id) body).reply = some (.send 400 "invalid update property") ∧
    (readProfile env s (some id) body).store =
      findByIdAndUpdate s id (fun _ => body.foldl (fun acc kv => assign env acc kv.1 kv.2) u) := by
  have hv : (List.map Prod.fst body).all (fun update => allowedUpdates.contains update) = false := by
    obtain ⟨kv, hkv, hn⟩ := hbad
    rw [← Bool.not_eq_true, List.all_eq_true]
    intro h
    have := h kv.1 (List.mem_map_of_mem _ hkv)
    simp at this
    exact hn this
  unfold readProfile
  simp only [hv, hu, hsave, Bool.not_false, if_true]
  simp [respond, start, logOp, catch500]

/-! ## C3: uniform failure of log-in -/

/-- C3: for every store and every pair of log-in requests with non-empty email
and password, one whose email matches no identity and one whose email matches
an identity whose stored hash the password does not match, both are answered
with status 401, the logIn view and the message "Invalid email or password!",
echoing their own input; no cookie is set, the store is unchanged and no
exception is raised. -/
theorem logIn_uniform_failure (env : Env) (s : Store) (e1 p1 e2 p2 : String) (doc : User)
    (he1 : e1 ≠ "") (hp1 : p1 ≠ "") (he2 : e2 ≠ "") (hp2 : p2 ≠ "")
    (hunknown : findOneByEmail s (some e1) = none)
    (hknown : findOneByEmail s (some e2) = some doc)
    (hwrong : env.compare p2 doc.password = false) :
    (logIn env s ⟨some e1, some p1⟩).reply =
        some (.render 401 "./auth/logIn" "Invalid email or password!"
          [("email", some e1), ("password", some p1)]) ∧
    (logIn env s ⟨some e2, some p2⟩).reply =
        some (.render 401 "./auth/logIn" "Invalid email or password!"
          [("email", some e2), ("password", some p2)]) ∧
    (logIn env s ⟨some e1, some p1⟩).cookies = [] ∧
    (logIn env s ⟨some e2, some p2⟩).cookies = [] ∧
    (logIn env s ⟨some e1, some p1⟩).store = s ∧
    (logIn env s ⟨some e2, some p2⟩).store = s ∧
    (logIn env s ⟨some e1, some p1⟩).threw = false ∧
    (logIn env s ⟨some e2, some p2⟩).threw = false := by
  have f1 := falsy_some_of_ne e1 he1
  have f2 := falsy_some_of_ne p1 hp1
  have f3 := falsy_some_of_ne e2 he2
  have f4 := falsy_some_of_ne p2 hp2
  simp [logIn, f1, f2, f3, f4, hunknown, hknown, hwrong, respond, start, logOp]

/-- Witness of C3: an unknown email and a wrong password for `alice`. -/
theorem logIn_uniform_failure_witness :
    (logIn sampleEnv [alice] ⟨some "nobody@x.com", some "Abcd123!"⟩).reply =
        some (.render 401 "./auth/logIn" "Invalid email or password!"
          [("email", some "nobody@x.com"), ("password", some "Abcd123!")]) ∧
    (logIn sampleEnv [alice] ⟨some "a@x.com", some "wrong"⟩).reply =
        some (.render 401 "./auth/logIn" "Invalid email or password!"
          [("email", some "a@x.com"), ("password", some "wrong")]) ∧
    (logIn sampleEnv [alice] ⟨some "nobody@x.com", some "Abcd123!"⟩).cookies = [] ∧
    (logIn sampleEnv [alice] ⟨some "a@x.com", some "wrong"⟩).cookies = [] ∧
    (logIn sampleEnv [alice] ⟨some "nobody@x.com", some "Abcd123!"⟩).store = [alice] ∧
    (logIn sampleEnv [alice] ⟨some "a@x.com", some "wrong"⟩).store = [alice] ∧
    (logIn sampleEnv [alice] ⟨some "nobody@x.com", some "Abcd123!"⟩).threw = false ∧
    (logIn sampleEnv [alice] ⟨some "a@x.com", some "wrong"⟩).threw = false :=
  logIn_uniform_failure sampleEnv [alice] "nobody@x.com" "Abcd123!" "a@x.com" "wrong" alice
    (by decide) (by decide) (by decide) (by decide) (by decide) (by decide) (by decide)

/-! ## C4: sign-up under a userName in use -/

/-- C4: for every store and every sign-up request that passes each check of
the handler (six non-empty fields, userName of 6 to 12 code units, alphabetic
names, a well-formed email, a password on which the password check does not
fire, equal confirmPassword) and whose userName is that of a stored identity,
whatever its email: the answer is the 401 page with "Username already taken!"
or "Email already taken!", the store is unchanged, no cookie is set and
nothing is saved. -/
theorem signUp_duplicate_userName_fails (env : Env) (s : Store)
    (fn ln un em pw cp : String)
    (hfn : fn ≠ "") (hln : ln ≠ "") (hun : un ≠ "") (hem : em ≠ "") (hpw : pw ≠ "")
    (hcp : cp ≠ "")
    (hlen : 6 ≤ jsLength un ∧ jsLength un ≤ 12)
    (hfirst : firstAndLastNameRegex (jsTrim fn) = true)
    (hlast : firstAndLastNameRegex (jsTrim ln) = true)
    (hemail : emailRegx em = true)
    (hpwd : pwdRegex pw = false)
    (hconfirm : pw = cp)
    (hdup : ∃ u ∈ s, u.userName = un) :
    (signUp env s ⟨some fn, some ln, some un, some em, some pw, some cp⟩).store = s ∧
    (signUp env s ⟨some fn, some ln, some un, some em, some pw, some cp⟩).cookies = [] ∧
    (∀ doc, Op.save doc ∉ (signUp env s ⟨some fn, some ln, some un, some em, some pw, some cp⟩).ops) ∧
    ∃ error, (error = "Username already taken!" ∨ error = "Email already taken!") ∧
      (signUp env s ⟨some fn, some ln, some un, some em, some pw, some cp⟩).reply =
        some (.render 401 "./auth/logIn" error
          [("firstName", some fn), ("lastName", some ln), ("email", some em),
           ("userName", some un), ("password", some pw), ("confirmPassword", some cp)]) := by
  obtain ⟨u, hu, hname⟩ := hdup
  have hfound : (findOneByEmailOrUserName s em un).isSome = true := by
    rw [findOneByEmailOrUserName, List.find?_isSome]
    exact ⟨u, hu, by simp [hname]⟩
  obtain ⟨doc, hdoc⟩ := Option.isSome_iff_exists.mp hfound
  have h1 : ¬ jsLength un < 6 := by omega
  have h2 : ¬ jsLength un > 12 := by omega
  subst hconfirm
  by_cases hde : doc.email = em <;>
    simp [signUp, falsy_some_of_ne, orElse_some_of_ne, hfn, hln, hun, hem, hpw, h1, h2,
      hfirst, hlast, hemail, hpwd, hdoc, hde, respond, start, logOp]

/-- Witness of C4: a second sign-up under the userName of `alice` with a
different email. -/
theorem signUp_duplicate_userName_fails_witness :
    (signUp sampleEnv [alice] ⟨some "Carol", some "Poe", some "alice01", some "c@x.com",
      some "abc", some "abc"⟩).store = [alice] ∧
    (signUp sampleEnv [alice] ⟨some "Carol", some "Poe", some "alice01", some "c@x.com",
      some "abc", some "abc"⟩).cookies = [] ∧
    (∀ doc, Op.save doc ∉ (signUp sampleEnv [alice] ⟨some "Carol", some "Poe", some "alice01",
      some "c@x.com", some "abc", some "abc"⟩).ops) ∧
    ∃ error, (error = "Username already taken!" ∨ error = "Email already taken!") ∧
      (signUp sampleEnv [alice] ⟨some "Carol", some "Poe", some "alice01", some "c@x.com",
        some "abc", some "abc"⟩).reply =
        some (.render 401 "./auth/logIn" error
          [("firstName", some "Carol"), ("lastName", some "Poe"), ("email", some "c@x.com"),
           ("userName", some "alice01"), ("password", some "abc"),
           ("confirmPassword", some "abc")]) :=
  signUp_duplicate_userName_fails sampleEnv [alice] "Carol" "Poe" "alice01" "c@x.com" "abc" "abc"
    (by decide) (by decide) (by decide) (by decide) (by decide) (by decide) (by decide)
    (by decide) (by decide) (by decide) (by decide) (by decide) ⟨alice, by decide, by decide⟩

/-! ## C5: follow, then unfollow -/

/-- C5: for stored identities A and B, a follow of B by A is answered with the
redirect to B's page and leaves A in `B.followers` and B in `A.following`; the
unfollow that comes next is answered with the same redirect and leaves A out of
`B.followers` and B out of `A.following`, however many copies there were. -/
theorem follow_then_unfollow_roundtrip (env : Env) (s : Store) (a b : Nat) (param : String)
    (ua ub : User) (ha : findById s a = some ua) (hb : findById s b = some ub)
    (hp : env.objectId param = some b) :
    (follow env s (some a) param).reply = some (.redirect ("/author/" ++ param)) ∧
    (∃ ua1 ub1, findById (follow env s (some a) param).store a = some ua1 ∧
      findById (follow env s (some a) param).store b = some ub1 ∧
      a ∈ ub1.followers ∧ b ∈ ua1.following) ∧
    (unfollow env (follow env s (some a) param).store (some a) param).reply =
      some (.redirect ("/author/" ++ param)) ∧
    (∃ ua2 ub2,
      findById (unfollow env (follow env s (some a) param).store (some a) param).store a
        = some ua2 ∧
      findById (unfollow env (follow env s (some a) param).store (some a) param).store b
        = some ub2 ∧
      a ∉ ub2.followers ∧ b ∉ ua2.following) := by
  refine ⟨follow_reply env s a b param hp, ?_, unfollow_reply env _ a b param hp, ?_⟩
  · rw [follow_store env s a b param hp, findById_follow, findById_follow]
    by_cases hab : a = b
    · subst hab
      rw [ha] at hb
      cases hb
      simp [ha, pushFollowers, pushFollowing]
    · have hba : ¬ b = a := fun e => hab e.symm
      simp [ha, hb, hab, hba, pushFollowers, pushFollowing]
  · rw [unfollow_store env _ a b param hp, findById_unfollow, findById_unfollow,
      follow_store env s a b param hp, findById_follow, findById_follow]
    by_cases hab : a = b
    · subst hab
      rw [ha] at hb
      cases hb
      simp [ha, pushFollowers, pushFollowing, pullFollowers, pullFollowing]
    · have hba : ¬ b = a := fun e => hab e.symm
      simp [ha, hb, hab, hba, pushFollowers, pushFollowing, pullFollowers, pullFollowing]

/-- Witness of C5 on the store of `alice` and `bob`. -/
theorem follow_then_unfollow_roundtrip_witness :
    (follow sampleEnv [alice, bob] (some 1) bobParam).reply
        = some (.redirect ("/author/" ++ bobParam)) ∧
    (∃ ua1 ub1, findById (follow sampleEnv [alice, bob] (some 1) bobParam).store 1 = some ua1 ∧
      findById (follow sampleEnv [alice, bob] (some 1) bobParam).store 2 = some ub1 ∧
      1 ∈ ub1.followers ∧ 2 ∈ ua1.following) ∧
    (unfollow sampleEnv (follow sampleEnv [alice, bob] (some 1) bobParam).store (some 1)
        bobParam).reply = some (.redirect ("/author/" ++ bobParam)) ∧
    (∃ ua2 ub2,
      findById (unfollow sampleEnv (follow sampleEnv [alice, bob] (some 1) bobParam).store
        (some 1) bobParam).store 1 = some ua2 ∧
      findById (unfollow sampleEnv (follow sampleEnv [alice, bob] (some 1) bobParam).store
        (some 1) bobParam).store 2 = some ub2 ∧
      1 ∉ ub2.followers ∧ 2 ∉ ua2.following) :=
  follow_then_unfollow_roundtrip sampleEnv [alice, bob] 1 2 bobParam alice bob
    (by decide) (by decide) (by decide)

/-! ## C6: following twice -/

/-- C6, as stated, fails: following `bob` twice as `alice` does not leave the
store of a single follow; `alice` then occurs twice in `bob.followers` and
`bob` twice in `alice.following`. -/
theorem follow_twice_not_idempotent :
    (follow sampleEnv (follow sampleEnv [alice, bob] (some 1) bobParam).store (some 1)
        bobParam).store ≠ (follow sampleEnv [alice, bob] (some 1) bobParam).store ∧
    (follow sampleEnv (follow sampleEnv [alice, bob] (some 1) bobParam).store (some 1)
        bobParam).store =
      [{ alice with following := [2, 2] }, { bob with followers := [1, 1] }] := by
  decide

/-- C6, amended: every follow of a stored B by a stored A appends one
occurrence; after two follows A occurs in `B.followers` twice more than
before (once more than after a single follow), and likewise B in
`A.following`; membership is the same after one follow and after two. -/
theorem follow_twice_appends_twice (env : Env) (s : Store) (a b : Nat) (param : String)
    (ua ub : User) (ha : findById s a = some ua) (hb : findById s b = some ub)
    (hp : env.objectId param = some b) :
    ∃ ua1 ub1 ua2 ub2,
      findById (follow env s (some a) param).store a = some ua1 ∧
      findById (follow env s (some a) param).store b = some ub1 ∧
      findById (follow env (follow env s (some a) param).store (some a) param).store a
        = some ua2 ∧
      findById (follow env (follow env s (some a) param).store (some a) param).store b
        = some ub2 ∧
      ub1.followers.count a = ub.followers.count a + 1 ∧
      ub2.followers.count a = ub.followers.count a + 2 ∧
      ua1.following.count b = ua.following.count b + 1 ∧
      ua2.following.count b = ua.following.count b + 2 ∧
      a ∈ ub1.followers ∧ a ∈ ub2.followers ∧ b ∈ ua1.following ∧ b ∈ ua2.following := by
  simp only [follow_store env _ a b param hp, findById_follow]
  by_cases hab : a = b
  · subst hab
    rw [ha] at hb
    cases hb
    simp [ha, pushFollowers, pushFollowing, List.count_append]
  · have hba : ¬ b = a := fun e => hab e.symm
    simp [ha, hb, hab, hba, pushFollowers, pushFollowing, List.count_append]

/-- Witness of the amended C6 on the store of `alice` and `bob`. -/
theorem follow_twice_appends_twice_witness :
    ∃ ua1 ub1 ua2 ub2,
      findById (follow sampleEnv [alice, bob] (some 1) bobParam).store 1 = some ua1 ∧
      findById (follow sampleEnv [alice, bob] (some 1) bobParam).store 2 = some ub1 ∧
      findById (follow sampleEnv (follow sampleEnv [alice, bob] (some 1) bobParam).store
        (some 1) bobParam).store 1 = some ua2 ∧
      findById (follow sampleEnv (follow sampleEnv [alice, bob] (some 1) bobParam).store
        (some 1) bobParam).store 2 = some ub2 ∧
      ub1.followers.count 1 = bob.followers.count 1 + 1 ∧
      ub2.followers.count 1 = bob.followers.count 1 + 2 ∧
      ua1.following.count 2 = alice.following.count 2 + 1 ∧
      ua2.following.count 2 = alice.following.count 2 + 2 ∧
      1 ∈ ub1.followers ∧ 1 ∈ ub2.followers ∧ 2 ∈ ua1.following ∧ 2 ∈ ua2.following :=
  follow_twice_appends_twice sampleEnv [alice, bob] 1 2 bobParam alice bob
    (by decide) (by decide) (by decide)

/-! ## C7: edge symmetry -/

/-- C7: in a store that satisfies edge symmetry, following a well-formed id
that names no stored identity succeeds with the redirect and leaves that id in
the requester's `following` list, with no stored identity behind it. -/
theorem follow_unknown_target_leaves_dangling_edge :
    graphInvariant [alice] = true ∧
    findById [alice] 7 = none ∧
    follow sampleEnv [alice] (some 1) ghostParam =
      { store := [{ alice with following := [7] }],
        reply := some (.redirect ("/author/" ++ ghostParam)),
        cookies := [],
        ops := [.findByIdAndUpdate 7, .findByIdAndUpdate 1],
        threw := false } ∧
    graphInvariant (follow sampleEnv [alice] (some 1) ghostParam).store = false := by
  decide

theorem graphInvariant_iff (s : Store) :
    graphInvariant s = true ↔
      (∀ ua ∈ s, ∀ ub ∈ s, (ua._id ∈ ub.followers ↔ ub._id ∈ ua.following)) ∧
      (∀ u ∈ s, ∀ i ∈ u.following, ∃ v ∈ s, v._id = i) := by
  simp only [graphInvariant, edgeSymmetric, followingStored, Bool.and_eq_true, List.all_eq_true,
    beq_iff_eq, findById, List.find?_isSome]
  constructor
  · rintro ⟨h1, h2⟩
    refine ⟨fun ua ha ub hb => ?_, fun u hu i hi => ?_⟩
    · have := h1 ua ha ub hb
      rw [Bool.eq_iff_iff] at this
      simpa using this
    · simpa using h2 u hu i hi
  · rintro ⟨h1, h2⟩
    refine ⟨fun ua ha ub hb => ?_, fun u hu i hi => ?_⟩
    · rw [Bool.eq_iff_iff]
      simpa using h1 ua ha ub hb
    · simpa using h2 u hu i hi

/-- In a store with unique ids, a follow whose target is a stored identity
keeps edge symmetry and leaves no dangling `following` id. -/
theorem follow_stored_target_preserves_graphInvariant (env : Env) (s : Store) (a b : Nat)
    (param : String) (ub : User) (hp : env.objectId param = some b)
    (hb : findById s b = some ub) (hids : uniqueIds s) (hinv : graphInvariant s = true) :
    graphInvariant (follow env s (some a) param).store = true := by
  rw [follow_store env s a b param hp, follow_updates_eq_map s a b hids]
  rw [graphInvariant_iff] at hinv ⊢
  obtain ⟨hsym, hst⟩ := hinv
  have hbs : ∃ v ∈ s, v._id = b := by
    have : (findById s b).isSome = true := by rw [hb]; rfl
    rw [findById, List.find?_isSome] at this
    obtain ⟨v, hv, e⟩ := this
    exact ⟨v, hv, by simpa using e⟩
  constructor
  · intro ua' ha' ub' hb'
    obtain ⟨ua, hua, rfl⟩ := List.mem_map.mp ha'
    obtain ⟨ub0, hub, rfl⟩ := List.mem_map.mp hb'
    have := hsym ua hua ub0 hub
    dsimp only
    by_cases h1 : ub0._id = b
    · by_cases h2 : ua._id = a
      · rw [if_pos h1, if_pos h2]
        simp [h1, h2]
      · rw [if_pos h1, if_neg h2, List.mem_append, List.mem_singleton, this]
        simp [h2]
    · by_cases h2 : ua._id = a
      · rw [if_neg h1, if_pos h2, List.mem_append, List.mem_singleton, this]
        simp [h1]
      · rw [if_neg h1, if_neg h2, this]
  · intro u' hu' i hi
    obtain ⟨u, hu, rfl⟩ := List.mem_map.mp hu'
    have key : ∀ j, (∃ v ∈ s, v._id = j) → ∃ v ∈ s.map (fun u =>
        { u with
          followers := if u._id = b then u.followers ++ [a] else u.followers,
          following := if u._id = a then u.following ++ [b] else u.following }), v._id = j := by
      rintro j ⟨v, hv, e⟩
      exact ⟨_, List.mem_map_of_mem _ hv, e⟩
    apply key
    by_cases h2 : u._id = a
    · simp only [h2, if_true, List.mem_append, List.mem_singleton] at hi
      rcases hi with hi | hi
      · exact hst u hu i hi
      · rw [hi]; exact hbs
    · simp only [h2, if_false] at hi
      exact hst u hu i hi

/-- In a store with unique ids, an unfollow keeps edge symmetry and leaves no
dangling `following` id, whatever well-formed id is the target. -/
theorem unfollow_preserves_graphInvariant (env : Env) (s : Store) (a b : Nat)
    (param : String) (hp : env.objectId param = some b)
    (hids : uniqueIds s) (hinv : graphInvariant s = true) :
    graphInvariant (unfollow env s (some a) param).store = true := by
  rw [unfollow_store env s a b param hp, unfollow_updates_eq_map s a b hids]
  rw [graphInvariant_iff] at hinv ⊢
  obtain ⟨hsym, hst⟩ := hinv
  constructor
  · intro ua' ha' ub' hb'
    obtain ⟨ua, hua, rfl⟩ := List.mem_map.mp ha'
    obtain ⟨ub0, hub, rfl⟩ := List.mem_map.mp hb'
    have := hsym ua hua ub0 hub
    dsimp only
    by_cases h1 : ub0._id = b
    · by_cases h2 : ua._id = a
      · rw [if_pos h1, if_pos h2]
        simp [h1, h2]
      · rw [if_pos h1, if_neg h2, List.mem_filter, this]
        simp [h2]
    · by_cases h2 : ua._id = a
      · rw [if_neg h1, if_pos h2, List.mem_filter, this]
        simp [h1]
      · rw [if_neg h1, if_neg h2, this]
  · intro u' hu' i hi
    obtain ⟨u, hu, rfl⟩ := List.mem_map.mp hu'
    have key : ∀ j, (∃ v ∈ s, v._id = j) → ∃ v ∈ s.map (fun u =>
        { u with
          followers := if u._id = b then u.followers.filter (fun y => !(y == a)) else u.followers,
          following := if u._id = a then u.following.filter (fun y => !(y == b)) else u.following }),
          v._id = j := by
      rintro j ⟨v, hv, e⟩
      exact ⟨_, List.mem_map_of_mem _ hv, e⟩
    apply key
    by_cases h2 : u._id = a
    · simp only [h2, if_true, List.mem_filter] at hi
      exact hst u hu i hi.1
    · simp only [h2, if_false] at hi
      exact hst u hu i hi

/-! ## C8: uniqueness of userName and email -/

/-- A document of the store after a replacement is a document of the store
before or the new document. -/
theorem mem_findByIdAndUpdate_const (s : Store) (id : Nat) (d x : User)
    (hx : x ∈ findByIdAndUpdate s id (fun _ => d)) : x ∈ s ∨ x = d := by
  induction s with
  | nil => simp [findByIdAndUpdate] at hx
  | cons u us ih =>
    rw [findByIdAndUpdate_cons] at hx
    by_cases h : u._id = id
    · rw [if_pos h, List.mem_cons] at hx
      rcases hx with hx | hx
      · exact Or.inr hx
      · exact Or.inl (List.mem_cons_of_mem _ hx)
    · rw [if_neg h, List.mem_cons] at hx
      rcases hx with hx | hx
      · exact Or.inl (hx ▸ List.mem_cons_self _ _)
      · rcases ih hx with h1 | h1
        · exact Or.inl (List.mem_cons_of_mem _ h1)
        · exact Or.inr h1

/-- Replacing the loaded document by one that clashes with no other document
keeps userNames and emails unique. -/
theorem uniqueNames_replace (s : Store) (id : Nat) (d : User) (h : uniqueNames s)
    (hc : ∀ v ∈ s.eraseP (fun v => v._id == id), noClash d v = true) :
    uniqueNames (findByIdAndUpdate s id (fun _ => d)) := by
  induction s with
  | nil => exact h
  | cons u us ih =>
    unfold uniqueNames at h ih ⊢
    rw [List.pairwise_cons] at h
    rw [findByIdAndUpdate_cons]
    by_cases hid : u._id = id
    · have he : (u :: us).eraseP (fun v => v._id == id) = us := by
        simp [List.eraseP_cons, hid]
      rw [he] at hc
      rw [if_pos hid, List.pairwise_cons]
      refine ⟨fun v hv => ?_, h.2⟩
      have := hc v hv
      simp only [noClash, Bool.and_eq_true, bne_iff_ne, ne_eq] at this
      exact ⟨fun e => this.1 e.symm, fun e => this.2 e.symm⟩
    · have he : (u :: us).eraseP (fun v => v._id == id) =
          u :: us.eraseP (fun v => v._id == id) := by
        simp [List.eraseP_cons, hid]
      rw [he] at hc
      rw [if_neg hid, List.pairwise_cons]
      refine ⟨fun x hx => ?_, ih h.2 (fun v hv => hc v (List.mem_cons_of_mem _ hv))⟩
      rcases mem_findByIdAndUpdate_const us id d x hx with h1 | h1
      · exact h.1 x h1
      · subst h1
        have := hc u (List.mem_cons_self _ _)
        simpa [noClash] using this

/-- A successful save of a loaded document keeps userNames and emails unique. -/
theorem saveLoaded_uniqueNames (env : Env) (s : Store) (id : Nat) (d : User) (s2 : Store)
    (h : uniqueNames s) (hs : saveLoaded env s id d = some s2) : uniqueNames s2 := by
  unfold saveLoaded at hs
  split at hs
  · rename_i hc
    simp only [Bool.and_eq_true, List.all_eq_true] at hc
    rw [← Option.some.inj hs]
    exact uniqueNames_replace s id d h hc.2
  · exact absurd hs (by simp)

/-- POST /read-profile keeps userNames and emails unique: the handler has no
check of its own, a save that would duplicate one fails in the store and the
handler answers from its `catch` block. -/
theorem readProfile_preserves_uniqueNames (env : Env) (s : Store) (user : Option Nat)
    (body : List (String × String)) (h : uniqueNames s) :
    uniqueNames (readProfile env s user body).store := by
  unfold readProfile
  simp only
  split
  · simp only [catch500, respond_store]
    split <;> simpa [respond_store, start] using h
  · split
    · simp only [catch500, respond_store, logOp]
      split <;> simpa [respond_store, start] using h
    · split
      · rename_i s2 hs
        have h2 := saveLoaded_uniqueNames env s _ _ s2 h hs
        split <;> simpa [catch500, respond_store] using h2
      · simp only [catch500, respond_store, logOp]
        split <;> simpa [respond_store, start] using h

/-- The profile update that asks for the userName of another identity: the
save fails, the answer is the 500 of the `catch` block and the store is as it
was. -/
theorem readProfile_taken_userName_refused :
    readProfile sampleEnv [alice, bob] (some 2) [("userName", "alice01")] =
      { store := [alice, bob],
        reply := some (.sendError 500),
        cookies := [],
        ops := [.findById 2, .save { bob with userName := "alice01" }],
        threw := false } := by
  decide

theorem uniqueNames_iff_map (s : Store) :
    uniqueNames s ↔ (s.map (fun u => (u.userName, u.email))).Pairwise
      (fun p q => p.1 ≠ q.1 ∧ p.2 ≠ q.2) := by
  unfold uniqueNames
  rw [List.pairwise_map]

/-- An update that touches neither userName nor email keeps them unique. -/
theorem uniqueNames_findByIdAndUpdate (s : Store) (id : Nat) (f : User → User)
    (hf : ∀ u, (f u).userName = u.userName ∧ (f u).email = u.email) (h : uniqueNames s) :
    uniqueNames (findByIdAndUpdate s id f) := by
  rw [uniqueNames_iff_map] at h ⊢
  rw [map_findByIdAndUpdate _ s id f (fun u => by simp [(hf u).1, (hf u).2])]
  exact h

/-- GET /follow/:id keeps userNames and emails unique. -/
theorem follow_preserves_uniqueNames (env : Env) (s : Store) (user : Option Nat)
    (param : String) (h : uniqueNames s) : uniqueNames (follow env s user param).store := by
  unfold follow
  split
  · simpa [respond_store, start] using h
  · split
    · simpa [respond_store, start] using h
    · simp only [respond_store, logOp]
      exact uniqueNames_findByIdAndUpdate _ _ _ (fun u => ⟨rfl, rfl⟩)
        (uniqueNames_findByIdAndUpdate _ _ _ (fun u => ⟨rfl, rfl⟩) h)

/-- GET /unfollow/:id keeps userNames and emails unique. -/
theorem unfollow_preserves_uniqueNames (env : Env) (s : Store) (user : Option Nat)
    (param : String) (h : uniqueNames s) : uniqueNames (unfollow env s user param).store := by
  unfold unfollow
  split
  · simpa [respond_store, start] using h
  · split
    · simpa [respond_store, start] using h
    · simp only [respond_store, logOp]
      exact uniqueNames_findByIdAndUpdate _ _ _ (fun u => ⟨rfl, rfl⟩)
        (uniqueNames_findByIdAndUpdate _ _ _ (fun u => ⟨rfl, rfl⟩) h)

/-- POST /sign-up keeps userNames and emails unique, whatever the model
accepts: the handler looks for a holder of the email or userName first. -/
theorem signUp_preserves_uniqueNames (env : Env) (s : Store) (body : SignUpBody)
    (h : uniqueNames s) : uniqueNames (signUp env s body).store := by
  rcases signUp_store_cases env s body with h0 | h1
  · rw [h0]; exact h
  · obtain ⟨-, -, -, -, -, -, -, hnone, -, -⟩ := signUp_success_checks env s body h1
    rw [(signUp_success_outcome env s body h1).1]
    unfold uniqueNames at h ⊢
    rw [List.pairwise_append]
    refine ⟨h, List.pairwise_singleton _ _, ?_⟩
    intro u hu d hd
    rw [List.mem_singleton] at hd
    subst hd
    rw [findOneByEmailOrUserName, List.find?_eq_none] at hnone
    have := hnone u hu
    simp only [Bool.or_eq_true, beq_iff_eq, not_or] at this
    exact ⟨by simpa [newUser] using this.2, by simpa [newUser] using this.1⟩

/-- C8: for every store in which no two identities share a userName or an
email, the store after a POST /sign-up, a POST /read-profile, a GET /follow/:id
or a GET /unfollow/:id, whatever the request, still has no two identities
sharing a userName or an email. -/
theorem routes_preserve_uniqueNames (env : Env) (s : Store) (h : uniqueNames s)
    (signUpBody : SignUpBody) (user : Option Nat) (profileBody : List (String × String))
    (param : String) :
    uniqueNames (signUp env s signUpBody).store ∧
    uniqueNames (readProfile env s user profileBody).store ∧
    uniqueNames (follow env s user param).store ∧
    uniqueNames (unfollow env s user param).store :=
  ⟨signUp_preserves_uniqueNames env s signUpBody h,
   readProfile_preserves_uniqueNames env s user profileBody h,
   follow_preserves_uniqueNames env s user param h,
   unfollow_preserves_uniqueNames env s user param h⟩

/-- Witness of C8 on the store of `alice` and `bob`: a sign-up that creates
`carol`, the profile update of `bob` to the userName of `alice`, and the
follow and unfollow of `alice` by `bob`. -/
theorem routes_preserve_uniqueNames_witness :
    uniqueNames [alice, bob] ∧
    uniqueNames (signUp sampleEnv [alice, bob] ⟨some "Carol", some "Poe", some "carol03",
      some "c@x.com", some "abc", some "abc"⟩).store ∧
    uniqueNames (readProfile sampleEnv [alice, bob] (some 2) [("userName", "alice01")]).store ∧
    uniqueNames (follow sampleEnv [alice, bob] (some 2) aliceParam).store ∧
    uniqueNames (unfollow sampleEnv [alice, bob] (some 2) aliceParam).store :=
  ⟨by decide,
   routes_preserve_uniqueNames sampleEnv [alice, bob] (by decide)
     ⟨some "Carol", some "Poe", some "carol03", some "c@x.com", some "abc", some "abc"⟩
     (some 2) [("userName", "alice01")] aliceParam⟩

/-! ## C9: names stored by sign-up -/

/-- C9: every identity created by a sign-up that is answered with the redirect
has a stored firstName and a stored lastName that are non-empty and consist
only of the letters a-z and A-Z, whatever the request body. -/
theorem signUp_names_alphabetic (env : Env) (s : Store) (body : SignUpBody)
    (h : (signUp env s body).reply = some (.redirect "/")) :
    ∃ u, (signUp env s body).store = s ++ [u] ∧
      u.firstName.data ≠ [] ∧ (∀ c ∈ u.firstName.data, isLetter c = true) ∧
      u.lastName.data ≠ [] ∧ (∀ c ∈ u.lastName.data, isLetter c = true) := by
  obtain ⟨-, -, c1, c2, -⟩ := signUp_success_checks env s body h
  refine ⟨_, (signUp_success_outcome env s body h).1, ?_, ?_, ?_, ?_⟩
  · intro e
    simp [firstAndLastNameRegex, newUser] at c1 e
    exact c1.1 e
  · simp only [firstAndLastNameRegex, Bool.and_eq_true, List.all_eq_true] at c1
    simpa [newUser] using c1.2
  · intro e
    simp [firstAndLastNameRegex, newUser] at c2 e
    exact c2.1 e
  · simp only [firstAndLastNameRegex, Bool.and_eq_true, List.all_eq_true] at c2
    simpa [newUser] using c2.2

/-- Witness of C9: the sign-up with firstName " Bob", which the handler
accepts. -/
theorem signUp_names_alphabetic_witness :
    (signUp sampleEnv [] ⟨some " Bob", some "Roe", some "bobby02", some "b@x.com",
        some "abc", some "abc"⟩).reply = some (.redirect "/") ∧
    ∃ u, (signUp sampleEnv [] ⟨some " Bob", some "Roe", some "bobby02", some "b@x.com",
        some "abc", some "abc"⟩).store = [] ++ [u] ∧
      u.firstName.data ≠ [] ∧ (∀ c ∈ u.firstName.data, isLetter c = true) ∧
      u.lastName.data ≠ [] ∧ (∀ c ∈ u.lastName.data, isLetter c = true) :=
  ⟨by decide, signUp_names_alphabetic sampleEnv []
    ⟨some " Bob", some "Roe", some "bobby02", some "b@x.com", some "abc", some "abc"⟩
    (by decide)⟩

/-! ## C10: log-in with a missing field -/

/-- C10: a log-in with an empty password writes the 401 page "Please add all
the fields!" and then still looks the identity up and compares the password;
the second response it attempts raises an exception. -/
theorem logIn_empty_password_still_looks_up (env : Env) :
    logIn env [alice] ⟨some "a@x.com", some ""⟩ =
      { store := [alice],
        reply := some (.render 401 "./auth/logIn" "Please add all the fields!"
          [("email", some "a@x.com"), ("password", some "")]),
        cookies := [],
        ops := [.findOneByEmail (some "a@x.com"), .bcryptCompare (some "") alice.password],
        threw := true } := by
  cases hc : env.compare "" "hash:Abcd123!" <;>
    simp [logIn, falsy, orElse, findOneByEmail, alice, mkUser, hc, respond, start, logOp,
      cookieAndRedirect]

/-- The log-in handler issues the lookup by email for every body, also when a
field is missing or empty. -/
theorem logIn_always_looks_up (env : Env) (s : Store) (body : LogInBody) :
    Op.findOneByEmail body.email ∈ (logIn env s body).ops := by
  unfold logIn
  simp only
  split
  · simp [respond_ops, logOp]
  · split <;> simp [respond_ops, cookieAndRedirect_ops, logOp]

end WordNook
